import Mathlib

/-!
Shallow embedding of the Royal Mail label-manager client
(src/scripts/royalmail-client.ts).

The stateful parts are modelled as explicit state passing.  External
facts about the environment (whether connectOverCDP succeeds on a given
endpoint, whether the connected browser has a context with an open page,
the websocket endpoint reported by a freshly launched browser, the page
text, the suggested filename of a triggered download, which button
selectors match on the page) are inputs collected in `Env`.  The
in-process client fields and the persisted descriptor file are collected
in `ClientState`.  Every browser interaction performed by an operation is
recorded as a `BEvent` in the returned trace.

The JavaScript regular expressions of extractConfirmation are embedded
as executable matchers over `List Char` with leftmost-match search and
greedy (backtracking) quantifier semantics; the JS class `\s` is
modelled as ASCII whitespace, which covers every input appearing in the
theorems below.
-/

/-- SessionInfo, the persisted descriptor (interface SessionInfo). -/
structure SessionInfo where
  wsEndpoint : String
  createdAt : Nat
  loggedIn : Bool
  formFilled : Bool
  labelGenerated : Bool
deriving DecidableEq, Repr

/-- Partial update of the descriptor, as passed to updateSession. -/
structure SessionUpdate where
  loggedIn : Option Bool := none
  formFilled : Option Bool := none
  labelGenerated : Option Bool := none
deriving DecidableEq, Repr

/-- Environment facts an invocation observes (Playwright results, page
content, clock).  Functions model queries whose answer depends on data
supplied by the outside world. -/
structure Env where
  connectable : String → Bool
  hasLivePage : String → Bool
  launchEndpoint : Option String
  now : Nat
  findButton : String → Bool
  pageText : String
  downloadName : Option String

/-- The client plus the descriptor file on disk
(none models a missing /tmp/royalmail-session.json). -/
structure ClientState where
  sessionFile : Option SessionInfo
  browserOpen : Bool
deriving DecidableEq, Repr

/-- Browser interactions performed during an operation. -/
inductive BEvent where
  | connect
  | launch
  | tryClick (sel : String)
  | click (sel : String)
  | waitLoad
  | screenshot
  | downloadWait
  | closeBrowser
deriving DecidableEq, Repr

/-- Structured result returned to the CLI layer (interface Result);
the success and error flags of the source are folded into one Bool. -/
structure RMResult where
  success : Bool
  message : String
  trackingNumber : Option String := none
  cost : Option String := none
  labelPath : Option String := none
deriving DecidableEq, Repr

def errResult (m : String) : RMResult := { success := false, message := m }

def submitPrecondMsg : String := "Form has not been filled yet. Call create-label first."

def downloadPrecondMsg : String := "Label has not been generated yet. Call submit first."

def submitOkMsg : String := "Label created successfully. Call download-label to save the PDF."

def resetOkMsg : String := "Browser session closed and cleared."

/-- Stands for the message of the caught timeout error of
page.waitForEvent("download"). -/
def downloadTimeoutMsg : String := "Download failed: Timeout 30000ms exceeded."

def labelDirPath : String := "/home/USER/biz/shipping-labels"

/-- The fresh descriptor written after a launch, when the launched
browser reports a websocket endpoint; otherwise nothing is written and
the prior file content stays. -/
def coldLaunch (env : Env) (prev : Option SessionInfo) : Option SessionInfo :=
  match env.launchEndpoint with
  | some e => some { wsEndpoint := e, createdAt := env.now, loggedIn := false,
                     formFilled := false, labelGenerated := false }
  | none => prev

/-- RoyalMailClient.ensureBrowser.  Reconnect when the descriptor file
exists and connectOverCDP succeeds and a context with a page is there;
a thrown connect deletes the file; a connected browser without a page
falls through to the launch without deleting; the launch persists a
fresh descriptor only when the endpoint is reported. -/
def ensureBrowser (env : Env) (st : ClientState) : ClientState × List BEvent :=
  match st.sessionFile with
  | some s =>
    if env.connectable s.wsEndpoint then
      if env.hasLivePage s.wsEndpoint then
        ({ sessionFile := some s, browserOpen := true }, [BEvent.connect])
      else
        ({ sessionFile := coldLaunch env (some s), browserOpen := true },
         [BEvent.connect, BEvent.launch])
    else
      ({ sessionFile := coldLaunch env none, browserOpen := true },
       [BEvent.connect, BEvent.launch])
  | none =>
    ({ sessionFile := coldLaunch env none, browserOpen := true }, [BEvent.launch])

/-- Object.assign of a partial update onto the parsed descriptor. -/
def applyUpdate (s : SessionInfo) (u : SessionUpdate) : SessionInfo :=
  { s with
    loggedIn := u.loggedIn.getD s.loggedIn,
    formFilled := u.formFilled.getD s.formFilled,
    labelGenerated := u.labelGenerated.getD s.labelGenerated }

/-- RoyalMailClient.updateSession: writes only when the file exists. -/
def updateSession (file : Option SessionInfo) (u : SessionUpdate) : Option SessionInfo :=
  match file with
  | some s => some (applyUpdate s u)
  | none => none

/-- The three updates the source ever passes to updateSession
(login, createLabel, submit). -/
def usedUpdates : List SessionUpdate :=
  [{ loggedIn := some true }, { formFilled := some true }, { labelGenerated := some true }]

def flagsLe (s t : SessionInfo) : Prop :=
  (s.loggedIn = true → t.loggedIn = true) ∧
  (s.formFilled = true → t.formFilled = true) ∧
  (s.labelGenerated = true → t.labelGenerated = true)

-- ============================================
-- Regular-expression matchers of extractConfirmation
-- ============================================

/-- Case-insensitive literal match at the current position; returns the
rest of the input on success. -/
def matchLitCI : List Char → List Char → Option (List Char)
  | [], cs => some cs
  | _ :: _, [] => none
  | l :: ls, c :: cs => if c.toLower = l.toLower then matchLitCI ls cs else none

/-- Exactly n characters satisfying p; returns (consumed, rest). -/
def takeCount (p : Char → Bool) : Nat → List Char → Option (List Char × List Char)
  | 0, cs => some ([], cs)
  | _ + 1, [] => none
  | n + 1, c :: cs =>
    if p c then
      match takeCount p n cs with
      | some (t, r) => some (c :: t, r)
      | none => none
    else none

/-- A letter of the class written [A-Z] in the source; under the i flag
it also matches a lowercase ASCII letter. -/
def trackLetter (ci : Bool) (c : Char) : Bool :=
  c.isUpper || (ci && c.isLower)

/-- The capture group ([A-Z]{2}\d{9}GB): two letters, nine digits, G, B. -/
def matchCode (ci : Bool) (cs : List Char) : Option (List Char × List Char) :=
  match takeCount (trackLetter ci) 2 cs with
  | none => none
  | some (a, r1) =>
    match takeCount Char.isDigit 9 r1 with
    | none => none
    | some (b, r2) =>
      match r2 with
      | g :: h :: rest =>
        if (if ci then g.toLower == 'g' else g == 'G') &&
           (if ci then h.toLower == 'b' else h == 'B') then
          some (a ++ b ++ [g, h], rest)
        else none
      | _ => none

/-- The class written [:\s#] in the tracking patterns. -/
def trackSep (c : Char) : Bool := c == ':' || c.isWhitespace || c == '#'

/-- The class written [:\s] in the cost patterns. -/
def costSep (c : Char) : Bool := c == ':' || c.isWhitespace

/-- The capture group (\d+): greedy, one or more digits. -/
def digitsGroup (cs : List Char) : Option (List Char × List Char) :=
  let g := cs.takeWhile Char.isDigit
  if g.isEmpty then none else some (g, cs.drop g.length)

def isCostChar (c : Char) : Bool := c.isDigit || c == '.' || c == ','

/-- The capture group ([\d.,]+): greedy, one or more of digit, dot, comma. -/
def costDigitsGroup (cs : List Char) : Option (List Char × List Char) :=
  let g := cs.takeWhile isCostChar
  if g.isEmpty then none else some (g, cs.drop g.length)

/-- [£\$]? followed by the cost capture group, with the backtracking of
the optional quantifier. -/
def currencyGroup (cs : List Char) : Option (List Char × List Char) :=
  match cs with
  | c :: rest =>
    if c == '£' || c == '$' then
      match costDigitsGroup rest with
      | some r => some r
      | none => costDigitsGroup cs
    else costDigitsGroup cs
  | [] => none

/-- sep* then the group, greedy with backtracking: consume one more
separator first; on failure retry the group at the current position. -/
def sepGrp (sep : Char → Bool) (grp : List Char → Option (List Char × List Char)) :
    List Char → Option (List Char)
  | [] => (grp []).map Prod.fst
  | c :: rest =>
    if sep c then
      match sepGrp sep grp rest with
      | some g => some g
      | none => (grp (c :: rest)).map Prod.fst
    else (grp (c :: rest)).map Prod.fst

/-- A pattern of the shape LITERAL sep* (group), at the current position. -/
def matchLabeled (label : List Char) (sep : Char → Bool)
    (grp : List Char → Option (List Char × List Char)) (cs : List Char) :
    Option (List Char) :=
  match matchLitCI label cs with
  | none => none
  | some r => sepGrp sep grp r

/-- Leftmost-match search: try the matcher at every position, first
success wins (String.prototype.match). -/
def scan (m : List Char → Option (List Char)) : List Char → Option (List Char)
  | [] => m []
  | c :: rest =>
    match m (c :: rest) with
    | some g => some g
    | none => scan m rest

def trackP1 : List Char → Option (List Char) :=
  matchLabeled ("Tracking".toList) trackSep (matchCode true)

def trackP2 : List Char → Option (List Char) :=
  matchLabeled ("Reference".toList) trackSep (matchCode true)

def trackP3 : List Char → Option (List Char) :=
  fun cs => (matchCode false cs).map Prod.fst

def trackP4 : List Char → Option (List Char) :=
  matchLabeled ("Barcode".toList) trackSep digitsGroup

def costP1 : List Char → Option (List Char) :=
  matchLabeled ("Total".toList) costSep currencyGroup

def costP2 : List Char → Option (List Char) :=
  matchLabeled ("Cost".toList) costSep currencyGroup

def costP3 : List Char → Option (List Char) :=
  matchLabeled ("Price".toList) costSep currencyGroup

/-- The bare pattern [£]([\d.,]+), case sensitive. -/
def costP4 : List Char → Option (List Char) :=
  fun cs =>
    match cs with
    | c :: rest => if c == '£' then (costDigitsGroup rest).map Prod.fst else none
    | [] => none

/-- Try each whole-text pattern in order; the first pattern with a match
anywhere wins. -/
def firstMatch (ps : List (List Char → Option (List Char))) (cs : List Char) :
    Option (List Char) :=
  match ps with
  | [] => none
  | p :: rest =>
    match scan p cs with
    | some g => some g
    | none => firstMatch rest cs

def trackingPatterns : List (List Char → Option (List Char)) :=
  [trackP1, trackP2, trackP3, trackP4]

def costPatterns : List (List Char → Option (List Char)) :=
  [costP1, costP2, costP3, costP4]

/-- The tracking-number half of extractConfirmation. -/
def extractTracking (text : String) : Option String :=
  (firstMatch trackingPatterns text.toList).map String.mk

/-- The cost half of extractConfirmation; the capture group is always
re-prefixed with the pound sign. -/
def extractCost (text : String) : Option String :=
  (firstMatch costPatterns text.toList).map (fun g => "£" ++ String.mk g)

/-- RoyalMailClient.extractConfirmation as a pure function of the page
text: (trackingNumber, cost). -/
def extractConfirmation (text : String) : Option String × Option String :=
  (extractTracking text, extractCost text)

-- ============================================
-- Submission, download, reset
-- ============================================

def submitButtonSelectors : List String :=
  [ "button:has-text(\"Buy postage\")"
  , "button:has-text(\"Apply postage\")"
  , "button:has-text(\"Create label\")"
  , "button:has-text(\"Continue\")"
  , "button:has-text(\"Next\")"
  , "button:has-text(\"Submit\")"
  , "button[type=\"submit\"]"
  , "[data-testid=\"submit-button\"]"
  , "[data-testid=\"create-label-button\"]" ]

def confirmButtonSelectors : List String :=
  [ "button:has-text(\"Confirm\")"
  , "button:has-text(\"Pay\")"
  , "button:has-text(\"Complete\")"
  , "button:has-text(\"Finish\")" ]

def downloadSelectors : List String :=
  [ "button:has-text(\"Download\")"
  , "button:has-text(\"Print\")"
  , "button:has-text(\"Get label\")"
  , "a:has-text(\"Download\")"
  , "a:has-text(\"Print label\")"
  , "[data-testid=\"download-label\"]"
  , ".download-label" ]

/-- The loops that page.$ each selector in order and click the first
match: every selector up to the first hit is queried (tryClick), the
hit is clicked, the loop breaks. -/
def clickFirstEvents (env : Env) : List String → List BEvent
  | [] => []
  | s :: rest =>
    if env.findButton s then [BEvent.tryClick s, BEvent.click s]
    else BEvent.tryClick s :: clickFirstEvents env rest

/-- The body of the try block of submit: click a submit candidate, wait
and screenshot, click a confirm candidate, screenshot, extract, advance
labelGenerated. -/
def submitProceed (env : Env) (st1 : ClientState) (evs : List BEvent) :
    RMResult × ClientState × List BEvent :=
  let ev1 := clickFirstEvents env submitButtonSelectors
  let ev2 := clickFirstEvents env confirmButtonSelectors
  let tc := extractConfirmation env.pageText
  ({ success := true, message := submitOkMsg, trackingNumber := tc.1, cost := tc.2 },
   { st1 with sessionFile := updateSession st1.sessionFile { labelGenerated := some true } },
   evs ++ ev1 ++ [BEvent.waitLoad, BEvent.screenshot] ++ ev2 ++ [BEvent.screenshot])

/-- RoyalMailClient.submit: acquires a page first; only then, and only
when the descriptor file exists, checks formFilled. -/
def submit (env : Env) (st : ClientState) : RMResult × ClientState × List BEvent :=
  match (ensureBrowser env st).1.sessionFile with
  | some s =>
    if s.formFilled then
      submitProceed env (ensureBrowser env st).1 (ensureBrowser env st).2
    else
      (errResult submitPrecondMsg, (ensureBrowser env st).1, (ensureBrowser env st).2)
  | none => submitProceed env (ensureBrowser env st).1 (ensureBrowser env st).2

/-- The body of the try block of downloadLabel: arm the download wait,
click a download candidate, await the event; name the file after a
tracking code found in the suggested filename, else a timestamp. -/
def downloadProceed (env : Env) (st1 : ClientState) (evs : List BEvent) :
    RMResult × ClientState × List BEvent :=
  let ev1 := clickFirstEvents env downloadSelectors
  match env.downloadName with
  | none =>
    ({ success := false, message := downloadTimeoutMsg }, st1,
     evs ++ ev1 ++ [BEvent.downloadWait, BEvent.screenshot])
  | some fn =>
    let tn := match scan trackP3 fn.toList with
      | some g => String.mk g
      | none => "label-" ++ toString env.now
    ({ success := true,
       message := "Label downloaded successfully to " ++ labelDirPath ++ "/" ++ tn ++ ".pdf",
       trackingNumber := some tn,
       labelPath := some (labelDirPath ++ "/" ++ tn ++ ".pdf") }, st1,
     evs ++ ev1 ++ [BEvent.downloadWait])

/-- RoyalMailClient.downloadLabel: acquires a page first; only then, and
only when the descriptor file exists, checks labelGenerated. -/
def downloadLabel (env : Env) (st : ClientState) : RMResult × ClientState × List BEvent :=
  match (ensureBrowser env st).1.sessionFile with
  | some s =>
    if s.labelGenerated then
      downloadProceed env (ensureBrowser env st).1 (ensureBrowser env st).2
    else
      (errResult downloadPrecondMsg, (ensureBrowser env st).1, (ensureBrowser env st).2)
  | none => downloadProceed env (ensureBrowser env st).1 (ensureBrowser env st).2

/-- RoyalMailClient.reset: close the held browser if any, delete the
descriptor file if present, report success. -/
def reset (st : ClientState) : RMResult × ClientState × List BEvent :=
  ({ success := true, message := resetOkMsg },
   { sessionFile := none, browserOpen := false },
   if st.browserOpen then [BEvent.closeBrowser] else [])

-- ============================================
-- Element Resolver (fillField)
-- ============================================

/-- An on-page input control (opaque handle). -/
structure Control where
  key : String
deriving DecidableEq, Repr

/-- Result of a page.$ query for a control: an element, null, or a
thrown selector error (caught by the source and treated as a miss for
the rest of the current variant). -/
inductive QRes where
  | found (c : Control)
  | notFound
  | thrown
deriving DecidableEq, Repr

/-- A label element found by label:has-text, carrying its for attribute
and the result of the structural-proximity query
(following sibling, parent child, descendant). -/
structure LabelHandle where
  forAttr : Option String
  proximity : QRes

/-- Result of a page.$ query for a label element. -/
inductive QLRes where
  | found (h : LabelHandle)
  | notFound
  | thrown

/-- A page snapshot: what each control selector and each label selector
resolves to. -/
structure PWPage where
  q : String → QRes
  qLabel : String → QLRes

def ariaSelector (label : String) : String :=
  "input[aria-label*=\"" ++ label ++ "\" i], textarea[aria-label*=\"" ++ label ++ "\" i]"

def placeholderSelector (label : String) : String :=
  "input[placeholder*=\"" ++ label ++ "\" i], textarea[placeholder*=\"" ++ label ++ "\" i]"

def labelTextSelector (label : String) : String :=
  "label:has-text(\"" ++ label ++ "\")"

def idSelector (f : String) : String := "#" ++ f

/-- label.toLowerCase().replace of whitespace runs by nothing. -/
def normalizeLabel (label : String) : String :=
  String.mk ((label.toList.map Char.toLower).filter (fun c => !c.isWhitespace))

def nameSelector (nv : String) : String :=
  "input[name*=\"" ++ nv ++ "\" i], textarea[name*=\"" ++ nv ++ "\" i]"

def idAttrSelector (nv : String) : String :=
  "input[id*=\"" ++ nv ++ "\" i], textarea[id*=\"" ++ nv ++ "\" i]"

def testIdSelector (nv : String) : String :=
  "input[data-testid*=\"" ++ nv ++ "\" i], textarea[data-testid*=\"" ++ nv ++ "\" i]"

/-- Strategy 3 of fillField: label element by text, then its explicit
for-association, then structural proximity.  A miss of the associated
control falls back to proximity; a miss of the label element falls
through to the later strategies. -/
def labelStrategy (p : PWPage) (label : String) : QRes :=
  match p.qLabel (labelTextSelector label) with
  | QLRes.thrown => QRes.thrown
  | QLRes.notFound => QRes.notFound
  | QLRes.found h =>
    match h.forAttr with
    | some f =>
      match p.q (idSelector f) with
      | QRes.found c => QRes.found c
      | QRes.thrown => QRes.thrown
      | QRes.notFound => h.proximity
    | none => h.proximity

/-- Chain two strategies: a miss tries the next, a hit or a thrown error
stops (the catch of the source skips the rest of the variant). -/
def qOrElse (r : QRes) (next : Unit → QRes) : QRes :=
  match r with
  | QRes.notFound => next ()
  | x => x

/-- All six strategies of fillField for one label variant, in source
order: aria-label, placeholder, label text, name, id, data-testid. -/
def tryVariant (p : PWPage) (label : String) : QRes :=
  qOrElse (p.q (ariaSelector label)) (fun _ =>
  qOrElse (p.q (placeholderSelector label)) (fun _ =>
  qOrElse (labelStrategy p label) (fun _ =>
  qOrElse (p.q (nameSelector (normalizeLabel label))) (fun _ =>
  qOrElse (p.q (idAttrSelector (normalizeLabel label))) (fun _ =>
  p.q (testIdSelector (normalizeLabel label)))))))

/-- RoyalMailClient.fillField: first variant whose strategies find a
control fills it; a found control ends the loop; anything else moves to
the next variant; no variant left is a silent no-op (none). -/
def fillField (p : PWPage) (labelVariants : List String) (value : String) :
    Option (Control × String) :=
  match labelVariants with
  | [] => none
  | l :: rest =>
    match tryVariant p l with
    | QRes.found c => some (c, value)
    | _ => fillField p rest value

-- ============================================
-- Concrete inputs used by counterexamples and witnesses
-- ============================================

/-- Environment where the stored endpoint is dead, the launched browser
reports no websocket endpoint, no button matches, the page is empty. -/
def deadEnv : Env :=
  { connectable := fun _ => false, hasLivePage := fun _ => false,
    launchEndpoint := none, now := 0, findButton := fun _ => false,
    pageText := "", downloadName := none }

/-- Like deadEnv but a download event fires with a suggested filename. -/
def deadEnvDl : Env := { deadEnv with downloadName := some "label.pdf" }

/-- Environment where reconnection fully succeeds. -/
def liveEnv : Env :=
  { connectable := fun _ => true, hasLivePage := fun _ => true,
    launchEndpoint := none, now := 0, findButton := fun _ => false,
    pageText := "", downloadName := none }

/-- Environment where the stored browser is alive but has no page, and
the launched browser reports no endpoint. -/
def pagelessEnv : Env :=
  { connectable := fun _ => true, hasLivePage := fun _ => false,
    launchEndpoint := none, now := 0, findButton := fun _ => false,
    pageText := "", downloadName := none }

/-- Environment where the stored endpoint is dead and the launched
browser reports a fresh endpoint. -/
def launchEnv : Env :=
  { connectable := fun _ => false, hasLivePage := fun _ => false,
    launchEndpoint := some "ws://new", now := 7, findButton := fun _ => false,
    pageText := "", downloadName := none }

/-- Descriptor present, logged in, form not yet filled. -/
def staleFormSt : ClientState :=
  { sessionFile := some ⟨"ws://old", 0, true, false, false⟩,
    browserOpen := false }

/-- Descriptor present, form filled, label not yet generated. -/
def staleLabelSt : ClientState :=
  { sessionFile := some ⟨"ws://old", 0, true, true, false⟩,
    browserOpen := false }

/-- No descriptor file on disk. -/
def emptySt : ClientState := { sessionFile := none, browserOpen := false }

/-- Client holding a live browser with a fully advanced descriptor. -/
def openSt : ClientState :=
  { sessionFile := some ⟨"ws://b", 3, true, true, true⟩,
    browserOpen := true }

/-- A page on which every selector query comes back empty. -/
def pNone : PWPage := { q := fun _ => QRes.notFound, qLabel := fun _ => QLRes.notFound }

-- ============================================
-- Helper lemmas (shared)
-- ============================================

theorem tryClick_head_mem (env : Env) (s : String) (rest : List String) :
    BEvent.tryClick s ∈ clickFirstEvents env (s :: rest) := by
  unfold clickFirstEvents
  by_cases h : env.findButton s
  · simp [h]
  · simp [h]

theorem qOrElse_not_found (r : QRes) (hr : ∀ c, r ≠ QRes.found c)
    (f : Unit → QRes) (hf : ∀ c, f () ≠ QRes.found c) :
    ∀ c, qOrElse r f ≠ QRes.found c := by
  intro c
  unfold qOrElse
  cases r with
  | found c0 => exact absurd rfl (hr c0)
  | notFound => exact hf c
  | thrown => exact fun h => QRes.noConfusion h

-- ============================================
-- Claim theorems
-- ============================================

/-- C5 counterexample: a text that contains the substring
"Tracking: AB123456789GB" yet yields a different tracking number,
because the leftmost match of the first pattern wins over the whole
text. -/
theorem extractTracking_earlier_match_wins :
    "Tracking: ZZ111111111GB Tracking: AB123456789GB" =
      "Tracking: ZZ111111111GB " ++ "Tracking: AB123456789GB" ∧
    extractTracking "Tracking: ZZ111111111GB Tracking: AB123456789GB" =
      some "ZZ111111111GB" ∧
    ("ZZ111111111GB" : String) ≠ "AB123456789GB" := by decide

/-- C5 (amended): the Confirmation Extractor is a pure function of the
page text; on the text "Tracking: AB123456789GB" it returns that code;
whenever the first pattern (Tracking label) has a leftmost match the
extractor returns exactly its capture, so the patterns are tried in the
fixed order with the first match winning; a text on which no tracking
pattern matches gives an absent tracking number rather than an error. -/
theorem extractTracking_order_and_absence :
    extractTracking "Tracking: AB123456789GB" = some "AB123456789GB" ∧
    (∀ t g, scan trackP1 t.toList = some g → extractTracking t = some (String.mk g)) ∧
    (∀ t, scan trackP1 t.toList = none → scan trackP2 t.toList = none →
      scan trackP3 t.toList = none → scan trackP4 t.toList = none →
      extractTracking t = none) := by
  refine ⟨by decide, ?_, ?_⟩
  · intro t g h
    simp only [extractTracking, trackingPatterns, firstMatch, h, Option.map_some']
  · intro t h1 h2 h3 h4
    simp only [extractTracking, trackingPatterns, firstMatch, h1, h2, h3, h4, Option.map_none']

/-- C5 witness: the amended order statement applied to the concrete
text whose first pattern matches at position zero. -/
theorem extractTracking_order_and_absence_witness :
    extractTracking "Tracking: AB123456789GB" = some (String.mk ("AB123456789GB".toList)) :=
  extractTracking_order_and_absence.2.1 "Tracking: AB123456789GB" ("AB123456789GB".toList)
    (by decide)

/-- C6 counterexample: a text containing the substring "Total: £12.34"
for which the extractor reports a different cost, because the first
pattern also matches inside the word Subtotal, earlier in the text. -/
theorem extractCost_subtotal_preempts_total :
    "Subtotal: £1.00 Total: £12.34" = "Subtotal: £1.00 " ++ "Total: £12.34" ∧
    extractCost "Subtotal: £1.00 Total: £12.34" = some "£1.00" ∧
    ("£1.00" : String) ≠ "£12.34" := by decide

/-- C6 (amended): on the text "Total: £12.34" the extractor returns the
cost "£12.34"; whenever the Total pattern has a leftmost match anywhere
in the text (including inside words such as Subtotal) the extractor
returns exactly its capture prefixed with the pound sign, so the cost
patterns are tried in the fixed order Total, Cost, Price, bare pound
amount, with the first match winning; a text with no match leaves the
cost absent rather than failing. -/
theorem extractCost_order_and_absence :
    extractCost "Total: £12.34" = some "£12.34" ∧
    (∀ t g, scan costP1 t.toList = some g → extractCost t = some ("£" ++ String.mk g)) ∧
    (∀ t, scan costP1 t.toList = none → scan costP2 t.toList = none →
      scan costP3 t.toList = none → scan costP4 t.toList = none →
      extractCost t = none) := by
  refine ⟨by decide, ?_, ?_⟩
  · intro t g h
    simp only [extractCost, costPatterns, firstMatch, h, Option.map_some']
  · intro t h1 h2 h3 h4
    simp only [extractCost, costPatterns, firstMatch, h1, h2, h3, h4, Option.map_none']

/-- C6 witness: the amended order statement applied to the concrete
text whose Total pattern matches at position zero. -/
theorem extractCost_order_and_absence_witness :
    extractCost "Total: £12.34" = some ("£" ++ String.mk ("12.34".toList)) :=
  extractCost_order_and_absence.2.1 "Total: £12.34" ("12.34".toList) (by decide)

/-- C10: every cost the extractor returns is the capture of a cost
pattern re-prefixed with the pound sign, whatever currency symbol the
text used; in particular "Cost: $5.00" yields "£5.00". -/
theorem extractCost_always_pound_prefixed :
    (∀ t c, extractCost t = some c → ∃ g, c = "£" ++ String.mk g) ∧
    extractCost "Cost: $5.00" = some "£5.00" := by
  constructor
  · intro t c h
    unfold extractCost at h
    cases hm : firstMatch costPatterns t.toList with
    | none => rw [hm] at h; simp at h
    | some g =>
      rw [hm] at h
      simp only [Option.map_some', Option.some.injEq] at h
      exact ⟨g, h.symm⟩
  · decide

/-- C10 witness: the pound-prefix statement applied at the concrete
input "Cost: $5.00". -/
theorem extractCost_always_pound_prefixed_witness :
    ∃ g, ("£5.00" : String) = "£" ++ String.mk g :=
  extractCost_always_pound_prefixed.1 "Cost: $5.00" "£5.00"
    extractCost_always_pound_prefixed.2

/-- C1 counterexample: with the descriptor showing formFilled = false
but its endpoint dead and the relaunch reporting no endpoint, submit
does not return a precondition failure at all: page acquisition deletes
the descriptor, the check is skipped, browser interaction happens and
the descriptor file changes. -/
theorem submit_formFilled_false_can_succeed :
    staleFormSt.sessionFile.map SessionInfo.formFilled = some false ∧
    (submit deadEnv staleFormSt).1.success = true ∧
    (submit deadEnv staleFormSt).2.2 ≠ [] ∧
    (submit deadEnv staleFormSt).2.1.sessionFile ≠ staleFormSt.sessionFile := by decide

/-- C1 (amended): submit first acquires a page, connecting to or
launching a browser (so the browser is touched and the descriptor may
be rewritten); when a descriptor still exists after acquisition it
still shows formFilled = false and submit returns the precondition
failure, with no further state change and no click attempted: the whole
trace is the page-acquisition connect and launch events. -/
theorem submit_precond_checked_after_page_acquire
    (env : Env) (st : ClientState) (s s1 : SessionInfo)
    (hs : st.sessionFile = some s) (hf : s.formFilled = false)
    (h1 : (ensureBrowser env st).1.sessionFile = some s1) :
    s1.formFilled = false ∧
    submit env st =
      (errResult submitPrecondMsg, (ensureBrowser env st).1, (ensureBrowser env st).2) ∧
    ∀ e ∈ (ensureBrowser env st).2, e = BEvent.connect ∨ e = BEvent.launch := by
  have hev : ∀ e ∈ (ensureBrowser env st).2, e = BEvent.connect ∨ e = BEvent.launch := by
    unfold ensureBrowser
    rw [hs]
    by_cases hc : env.connectable s.wsEndpoint
    · by_cases hp : env.hasLivePage s.wsEndpoint
      · simp [hc, hp]
      · simp [hc, hp]
    · simp [hc]
  have hff : s1.formFilled = false := by
    unfold ensureBrowser at h1
    rw [hs] at h1
    by_cases hc : env.connectable s.wsEndpoint
    · by_cases hp : env.hasLivePage s.wsEndpoint
      · simp [hc, hp] at h1
        subst h1; exact hf
      · cases hle : env.launchEndpoint with
        | some e =>
          simp [hc, hp, coldLaunch, hle] at h1
          subst h1; rfl
        | none =>
          simp [hc, hp, coldLaunch, hle] at h1
          subst h1; exact hf
    · cases hle : env.launchEndpoint with
      | some e =>
        simp [hc, coldLaunch, hle] at h1
        subst h1; rfl
      | none =>
        simp [hc, coldLaunch, hle] at h1
  refine ⟨hff, ?_, hev⟩
  unfold submit
  rw [h1]
  simp [hff]

/-- C1 witness: the amended statement at a live session whose
descriptor has formFilled = false. -/
theorem submit_precond_checked_after_page_acquire_witness :
    submit liveEnv staleFormSt =
      (errResult submitPrecondMsg, (ensureBrowser liveEnv staleFormSt).1,
       (ensureBrowser liveEnv staleFormSt).2) :=
  (submit_precond_checked_after_page_acquire liveEnv staleFormSt
    ⟨"ws://old", 0, true, false, false⟩ ⟨"ws://old", 0, true, false, false⟩
    rfl rfl (by decide)).2.1

/-- C2 counterexample: with the descriptor showing labelGenerated =
false but its endpoint dead and the relaunch reporting no endpoint,
download does not return a precondition failure: page acquisition
deletes the descriptor, the check is skipped, and the operation runs
to a download. -/
theorem download_labelGenerated_false_can_succeed :
    staleLabelSt.sessionFile.map SessionInfo.labelGenerated = some false ∧
    (downloadLabel deadEnvDl staleLabelSt).1.success = true ∧
    (downloadLabel deadEnvDl staleLabelSt).2.2 ≠ [] ∧
    (downloadLabel deadEnvDl staleLabelSt).2.1.sessionFile ≠ staleLabelSt.sessionFile := by
  decide

/-- C2 (amended): download first acquires a page, connecting to or
launching a browser; when a descriptor still exists after acquisition
it still shows labelGenerated = false and download returns the
precondition failure, with no further state change and no click
attempted: the whole trace is the page-acquisition events. -/
theorem download_precond_checked_after_page_acquire
    (env : Env) (st : ClientState) (s s1 : SessionInfo)
    (hs : st.sessionFile = some s) (hf : s.labelGenerated = false)
    (h1 : (ensureBrowser env st).1.sessionFile = some s1) :
    s1.labelGenerated = false ∧
    downloadLabel env st =
      (errResult downloadPrecondMsg, (ensureBrowser env st).1, (ensureBrowser env st).2) ∧
    ∀ e ∈ (ensureBrowser env st).2, e = BEvent.connect ∨ e = BEvent.launch := by
  have hev : ∀ e ∈ (ensureBrowser env st).2, e = BEvent.connect ∨ e = BEvent.launch := by
    unfold ensureBrowser
    rw [hs]
    by_cases hc : env.connectable s.wsEndpoint
    · by_cases hp : env.hasLivePage s.wsEndpoint
      · simp [hc, hp]
      · simp [hc, hp]
    · simp [hc]
  have hff : s1.labelGenerated = false := by
    unfold ensureBrowser at h1
    rw [hs] at h1
    by_cases hc : env.connectable s.wsEndpoint
    · by_cases hp : env.hasLivePage s.wsEndpoint
      · simp [hc, hp] at h1
        subst h1; exact hf
      · cases hle : env.launchEndpoint with
        | some e =>
          simp [hc, hp, coldLaunch, hle] at h1
          subst h1; rfl
        | none =>
          simp [hc, hp, coldLaunch, hle] at h1
          subst h1; exact hf
    · cases hle : env.launchEndpoint with
      | some e =>
        simp [hc, coldLaunch, hle] at h1
        subst h1; rfl
      | none =>
        simp [hc, coldLaunch, hle] at h1
  refine ⟨hff, ?_, hev⟩
  unfold downloadLabel
  rw [h1]
  simp [hff]

/-- C2 witness: the amended statement at a live session whose
descriptor has labelGenerated = false. -/
theorem download_precond_checked_after_page_acquire_witness :
    downloadLabel liveEnv staleLabelSt =
      (errResult downloadPrecondMsg, (ensureBrowser liveEnv staleLabelSt).1,
       (ensureBrowser liveEnv staleLabelSt).2) :=
  (download_precond_checked_after_page_acquire liveEnv staleLabelSt
    ⟨"ws://old", 0, true, true, false⟩ ⟨"ws://old", 0, true, true, false⟩
    rfl rfl (by decide)).2.1

/-- C3 counterexample: a descriptor referencing a live but page-less
browser, with the relaunch reporting no endpoint: a new browser is
launched, yet no fresh all-false descriptor is persisted and the stale
descriptor is left in place, still pointing at the old handle with
loggedIn = true. -/
theorem coldstart_pageless_keeps_stale_descriptor :
    BEvent.launch ∈ (ensureBrowser pagelessEnv staleLabelSt).2 ∧
    (ensureBrowser pagelessEnv staleLabelSt).1.sessionFile = staleLabelSt.sessionFile ∧
    staleLabelSt.sessionFile.map SessionInfo.loggedIn = some true := by decide

/-- C3 (amended): on every cold start (no prior descriptor, or a
descriptor whose browser is dead or page-less) a new browser is
launched; a fresh descriptor with all progress flags false is persisted
exactly when the launched browser reports a websocket endpoint; when it
does not, the file is left deleted if the reconnect threw, and left
pointing at the old page-less browser if the reconnect succeeded
without a usable page. -/
theorem coldstart_descriptor_persistence
    (env : Env) (st : ClientState)
    (hcold : ∀ s, st.sessionFile = some s →
      ¬(env.connectable s.wsEndpoint = true ∧ env.hasLivePage s.wsEndpoint = true)) :
    BEvent.launch ∈ (ensureBrowser env st).2 ∧
    (∀ e, env.launchEndpoint = some e →
      (ensureBrowser env st).1.sessionFile = some ⟨e, env.now, false, false, false⟩) ∧
    (env.launchEndpoint = none →
      (ensureBrowser env st).1.sessionFile =
        (match st.sessionFile with
         | some s => if env.connectable s.wsEndpoint then some s else none
         | none => none)) := by
  cases hsf : st.sessionFile with
  | none =>
    refine ⟨?_, ?_, ?_⟩
    · unfold ensureBrowser; rw [hsf]; simp
    · intro e he; unfold ensureBrowser; rw [hsf]; simp [coldLaunch, he]
    · intro he; unfold ensureBrowser; rw [hsf]; simp [coldLaunch, he]
  | some s =>
    have hns := hcold s hsf
    by_cases hc : env.connectable s.wsEndpoint
    · have hpf : env.hasLivePage s.wsEndpoint = false := by
        cases hpb : env.hasLivePage s.wsEndpoint
        · rfl
        · exact absurd ⟨hc, hpb⟩ hns
      refine ⟨?_, ?_, ?_⟩
      · unfold ensureBrowser; rw [hsf]; simp [hc, hpf]
      · intro e he; unfold ensureBrowser; rw [hsf]; simp [hc, hpf, coldLaunch, he]
      · intro he; unfold ensureBrowser; rw [hsf]; simp [hc, hpf, coldLaunch, he]
    · refine ⟨?_, ?_, ?_⟩
      · unfold ensureBrowser; rw [hsf]; simp [hc]
      · intro e he; unfold ensureBrowser; rw [hsf]; simp [hc, coldLaunch, he]
      · intro he; unfold ensureBrowser; rw [hsf]; simp [hc, coldLaunch, he]

/-- C3 witness: a dead endpoint with a reported fresh endpoint does
persist the all-false descriptor. -/
theorem coldstart_descriptor_persistence_witness :
    (ensureBrowser launchEnv emptySt).1.sessionFile =
      some ⟨"ws://new", 7, false, false, false⟩ :=
  (coldstart_descriptor_persistence launchEnv emptySt
    (fun s hs => by simp [emptySt] at hs)).2.1 "ws://new" rfl

/-- C4: the flags of the persisted descriptor are monotonically
advanced.  Every update the source passes to updateSession only raises
flags and never creates or deletes the file; a fully successful
reconnect returns the descriptor unchanged; ensureBrowser changes the
descriptor only when reconnection failed (dead endpoint or no live
page), and deletes it only when the connect threw; reset deletes it. -/
theorem session_flags_monotone :
    (∀ u ∈ usedUpdates, ∀ file : Option SessionInfo,
      (updateSession file u).isSome = file.isSome ∧
      ∀ s s1, file = some s → updateSession file u = some s1 → flagsLe s s1) ∧
    (∀ env st s, st.sessionFile = some s → env.connectable s.wsEndpoint = true →
      env.hasLivePage s.wsEndpoint = true → (ensureBrowser env st).1.sessionFile = some s) ∧
    (∀ env st s, st.sessionFile = some s → (ensureBrowser env st).1.sessionFile ≠ some s →
      ¬(env.connectable s.wsEndpoint = true ∧ env.hasLivePage s.wsEndpoint = true)) ∧
    (∀ env st s, st.sessionFile = some s → (ensureBrowser env st).1.sessionFile = none →
      env.connectable s.wsEndpoint = false) ∧
    (∀ st, (reset st).2.1.sessionFile = none) := by
  refine ⟨?_, ?_, ?_, ?_, fun st => rfl⟩
  · intro u hu file
    constructor
    · cases file <;> simp [updateSession]
    · intro s s1 hfile hupd
      subst hfile
      simp only [updateSession, Option.some.injEq] at hupd
      subst hupd
      simp [usedUpdates] at hu
      rcases hu with rfl | rfl | rfl <;>
        exact ⟨by simp [applyUpdate], by simp [applyUpdate], by simp [applyUpdate]⟩
  · intro env st s h1 hc hp
    unfold ensureBrowser; rw [h1]; simp [hc, hp]
  · intro env st s h1 hne
    rintro ⟨hc, hp⟩
    exact hne (by unfold ensureBrowser; rw [h1]; simp [hc, hp])
  · intro env st s h1 hnone
    cases hcb : env.connectable s.wsEndpoint
    · rfl
    · exfalso
      unfold ensureBrowser at hnone
      rw [h1] at hnone
      by_cases hp : env.hasLivePage s.wsEndpoint
      · simp [hcb, hp] at hnone
      · cases hle : env.launchEndpoint <;> simp [hcb, hp, coldLaunch, hle] at hnone

/-- C4 witness: the formFilled update applied to a concrete descriptor
advances the flags. -/
theorem session_flags_monotone_witness :
    flagsLe (⟨"ws://w", 2, true, false, false⟩ : SessionInfo)
      (applyUpdate ⟨"ws://w", 2, true, false, false⟩ { formFilled := some true }) :=
  (session_flags_monotone.1 { formFilled := some true } (by decide)
      (some ⟨"ws://w", 2, true, false, false⟩)).2
    ⟨"ws://w", 2, true, false, false⟩
    (applyUpdate ⟨"ws://w", 2, true, false, false⟩ { formFilled := some true }) rfl rfl

/-- C9 counterexample: invoked with no descriptor file, but with the
launched browser reporting an endpoint, page acquisition persists a
fresh all-false descriptor before the check runs, so the check is not
skipped: both operations return the precondition failure. -/
theorem precond_check_fires_after_fresh_descriptor :
    emptySt.sessionFile = none ∧
    (submit launchEnv emptySt).1 = errResult submitPrecondMsg ∧
    (downloadLabel launchEnv emptySt).1 = errResult downloadPrecondMsg := by decide

/-- C9 (amended): when no descriptor file exists and page acquisition
does not persist a fresh one (the launched browser reports no
endpoint), the precondition check is skipped entirely: submit and
download proceed to attempt button clicks and do not return the
precondition failure. -/
theorem precond_skipped_when_no_descriptor_persisted
    (env : Env) (st : ClientState)
    (h0 : st.sessionFile = none) (h1 : env.launchEndpoint = none) :
    (submit env st).1 ≠ errResult submitPrecondMsg ∧
    BEvent.tryClick "button:has-text(\"Buy postage\")" ∈ (submit env st).2.2 ∧
    (downloadLabel env st).1 ≠ errResult downloadPrecondMsg ∧
    BEvent.tryClick "button:has-text(\"Download\")" ∈ (downloadLabel env st).2.2 := by
  have hsf : (ensureBrowser env st).1.sessionFile = none := by
    unfold ensureBrowser; rw [h0]; simp [coldLaunch, h1]
  have hsub : submit env st =
      submitProceed env (ensureBrowser env st).1 (ensureBrowser env st).2 := by
    unfold submit; rw [hsf]
  have hdl : downloadLabel env st =
      downloadProceed env (ensureBrowser env st).1 (ensureBrowser env st).2 := by
    unfold downloadLabel; rw [hsf]
  have hmemS : BEvent.tryClick "button:has-text(\"Buy postage\")" ∈
      clickFirstEvents env submitButtonSelectors := by
    unfold submitButtonSelectors
    exact tryClick_head_mem env _ _
  have hmemD : BEvent.tryClick "button:has-text(\"Download\")" ∈
      clickFirstEvents env downloadSelectors := by
    unfold downloadSelectors
    exact tryClick_head_mem env _ _
  refine ⟨?_, ?_, ?_, ?_⟩
  · rw [hsub]
    intro hcon
    have hsucc := congrArg RMResult.success hcon
    simp [submitProceed, errResult] at hsucc
  · rw [hsub]
    simp [submitProceed, List.mem_append, hmemS]
  · rw [hdl]
    cases hdn : env.downloadName with
    | none =>
      intro hcon
      have hmsg := congrArg RMResult.message hcon
      simp [downloadProceed, hdn, errResult] at hmsg
      exact absurd hmsg (by decide)
    | some fn =>
      intro hcon
      have hsucc := congrArg RMResult.success hcon
      simp [downloadProceed, hdn, errResult] at hsucc
  · rw [hdl]
    cases hdn : env.downloadName with
    | none => simp [downloadProceed, hdn, List.mem_append, hmemD]
    | some fn => simp [downloadProceed, hdn, List.mem_append, hmemD]

/-- C9 witness: the skipped check at a dead session with no endpoint
from the relaunch. -/
theorem precond_skipped_when_no_descriptor_persisted_witness :
    (submit deadEnv emptySt).1 ≠ errResult submitPrecondMsg ∧
    BEvent.tryClick "button:has-text(\"Buy postage\")" ∈ (submit deadEnv emptySt).2.2 ∧
    (downloadLabel deadEnv emptySt).1 ≠ errResult downloadPrecondMsg ∧
    BEvent.tryClick "button:has-text(\"Download\")" ∈ (downloadLabel deadEnv emptySt).2.2 :=
  precond_skipped_when_no_descriptor_persisted deadEnv emptySt rfl rfl

/-- C8: reset always succeeds with the cleared state: it deletes the
descriptor, closes the held browser when there is one, succeeds from
every state including no session at all, and a second call in a row is
a no-op (no browser event) that still returns success. -/
theorem reset_clears_and_idempotent :
    ∀ st : ClientState,
      (reset st).1 = { success := true, message := resetOkMsg } ∧
      (reset st).2.1 = { sessionFile := none, browserOpen := false } ∧
      (st.browserOpen = true → (reset st).2.2 = [BEvent.closeBrowser]) ∧
      (st.browserOpen = false → (reset st).2.2 = []) ∧
      reset (reset st).2.1 =
        ({ success := true, message := resetOkMsg },
         { sessionFile := none, browserOpen := false }, []) := by
  intro st
  refine ⟨rfl, rfl, ?_, ?_, rfl⟩ <;> intro h <;> simp [reset, h]

/-- C8 witness: reset on a client holding a browser emits the close. -/
theorem reset_clears_and_idempotent_witness :
    (reset openSt).2.2 = [BEvent.closeBrowser] :=
  (reset_clears_and_idempotent openSt).2.2.1 rfl

/-- C7: when no strategy of fillField finds a control for any label
variant (control queries come back empty or throw, and any label
element found has no proximate control), fillField performs no fill and
returns normally: a silent no-op, never an error. -/
theorem fillField_no_match_noop
    (p : PWPage) (labelVariants : List String) (value : String)
    (hq : ∀ sel c, p.q sel ≠ QRes.found c)
    (hl : ∀ sel h c, p.qLabel sel = QLRes.found h → h.proximity ≠ QRes.found c) :
    fillField p labelVariants value = none := by
  induction labelVariants with
  | nil => rfl
  | cons l rest ih =>
    have hls : ∀ c, labelStrategy p l ≠ QRes.found c := by
      intro c
      unfold labelStrategy
      cases hql : p.qLabel (labelTextSelector l) with
      | thrown => exact fun h => QRes.noConfusion h
      | notFound => exact fun h => QRes.noConfusion h
      | found h =>
        dsimp only
        cases hfa : h.forAttr with
        | none => exact hl _ h c hql
        | some f =>
          dsimp only
          cases hq2 : p.q (idSelector f) with
          | found c2 => exact absurd hq2 (hq _ c2)
          | thrown => exact fun hh => QRes.noConfusion hh
          | notFound => exact hl _ h c hql
    have hv : ∀ c, tryVariant p l ≠ QRes.found c := by
      intro c
      unfold tryVariant
      apply qOrElse_not_found _ (hq _)
      intro c2
      apply qOrElse_not_found _ (hq _)
      intro c3
      apply qOrElse_not_found _ hls
      intro c4
      apply qOrElse_not_found _ (hq _)
      intro c5
      apply qOrElse_not_found _ (hq _)
      intro c6
      exact hq _ c6
    unfold fillField
    cases htv : tryVariant p l with
    | found c => exact absurd htv (hv c)
    | notFound => exact ih
    | thrown => exact ih

/-- C7 witness: a page on which every query is empty, for the weight
label variants. -/
theorem fillField_no_match_noop_witness :
    fillField pNone ["Weight", "Package weight", "weight"] "500" = none :=
  fillField_no_match_noop pNone ["Weight", "Package weight", "weight"] "500"
    (fun _ _ h => QRes.noConfusion h)
    (fun _ _ _ hfound => QLRes.noConfusion hfound)
